import Mathlib

/-!
Shallow embedding of the per-user credential configuration and
connection-testing subsystem of the JIA application
(app/models.py, app/services/mcp_client.py, app/config_mgmt/services.py),
together with theorems settling the specification claims about it.

Modelling conventions:
* Nullable text columns are modelled as `String`, with `""` standing for
  both SQL NULL and the empty string (Python truthiness identifies them,
  and every access in the embedded code goes through truthiness or
  `startswith`, so the identification is observation-preserving).
* The Fernet symmetric cipher is external library code; its contract
  (decrypt inverts encrypt under the same key, decryption fails on a
  wrong key or corrupt data) is modelled by the `TokenCell` type whose
  values are the possible contents of an encrypted-token column.
* JSON values are modelled by the `Json` inductive; Python `dict.get`,
  indexing, truthiness and `str()` are modelled by explicit helpers.
* Wall-clock readings (`time.time()*1000`, `datetime.utcnow()`) are passed
  in as `Nat` arguments.
* The outcome of one gateway tool invocation is passed in as an `Oracle`
  argument (tool name, arguments, headers ↦ result or raised error).
-/

namespace JIA

/-- JSON values as exchanged with the MCP gateway. -/
inductive Json where
  | null
  | bool (b : Bool)
  | num (n : Int)
  | str (s : String)
  | arr (items : List Json)
  | obj (fields : List (String × Json))
  deriving Repr

/-- Python `dict.get` without default: first binding of the key, if the
value is a dict; `none` otherwise (callers model the AttributeError of
`.get` on a non-dict separately where the source can hit it). -/
def Json.lookup (j : Json) (k : String) : Option Json :=
  match j with
  | .obj fs => List.lookup k fs
  | _ => none

/-- Python `key in dict`. -/
def Json.hasKey (j : Json) (k : String) : Bool :=
  (j.lookup k).isSome

/-- Python truthiness of a JSON value. -/
def Json.pyTruthy : Json → Bool
  | .null => false
  | .bool b => b
  | .num n => n != 0
  | .str s => s != ""
  | .arr items => !items.isEmpty
  | .obj fields => !fields.isEmpty

/-- Python type name of a JSON value (as used in error messages). -/
def Json.pyTypeName : Json → String
  | .null => "NoneType"
  | .bool _ => "bool"
  | .num _ => "int"
  | .str _ => "str"
  | .arr _ => "list"
  | .obj _ => "dict"

/-- Python `str()` of a JSON value.  The scalar cases are exact; the
container cases approximate the Python repr and are never relied on by
any theorem (the source only stringifies scalars). -/
def Json.pyStr : Json → String
  | .null => "None"
  | .bool b => if b then "True" else "False"
  | .num n => toString n
  | .str s => s
  | .arr _ => "[...]"
  | .obj _ => "..."

/-- Contents of an encrypted-token text column: empty (NULL or `""`),
a valid Fernet token produced under some key, or corrupt data. -/
inductive TokenCell where
  | blank
  | tok (key : Nat) (plain : String)
  | garbage (data : String)
  deriving Repr, DecidableEq

/-- Python truthiness of the stored column value. -/
def TokenCell.truthy : TokenCell → Bool
  | .blank => false
  | .tok _ _ => true
  | .garbage data => data != ""

/-- Fernet encryption under a process-wide key: always yields a valid
token for that key (library contract). -/
def fernetEncrypt (key : Nat) (plain : String) : TokenCell :=
  .tok key plain

/-- Fernet decryption: succeeds exactly on a token produced under the
same key; raises (here: `none`) on corrupt data or a wrong key. -/
def fernetDecrypt (key : Nat) : TokenCell → Option String
  | .tok k plain => if k = key then some plain else none
  | _ => none

/-- MCPConfiguration row (models.py).  Encrypted-token columns hold a
`TokenCell`; timestamps are modelled as `Option Nat`. -/
structure MCPConfiguration where
  user_id : Nat
  jira_url : String
  jira_personal_token : TokenCell
  jira_ssl_verify : Bool
  confluence_url : String
  confluence_personal_token : TokenCell
  confluence_ssl_verify : Bool
  server_url : String
  personal_access_token : TokenCell
  additional_params : List (String × Json)
  is_active : Bool
  last_tested : Option Nat
  deriving Repr

/-- `MCPConfiguration(user_id=uid)`: column defaults plus the
constructor's `additional_params = {}`. -/
def newMCPConfiguration (uid : Nat) : MCPConfiguration :=
  { user_id := uid
    jira_url := ""
    jira_personal_token := .blank
    jira_ssl_verify := true
    confluence_url := ""
    confluence_personal_token := .blank
    confluence_ssl_verify := true
    server_url := ""
    personal_access_token := .blank
    additional_params := []
    is_active := true
    last_tested := none }

/-- `set_personal_access_token` (legacy): store `""` for an empty token,
else encrypt and store. -/
def MCPConfiguration.set_personal_access_token (key : Nat) (c : MCPConfiguration)
    (token : String) : MCPConfiguration :=
  if token = "" then { c with personal_access_token := .blank }
  else { c with personal_access_token := fernetEncrypt key token }

/-- `get_personal_access_token` (legacy): `""` for an empty cell,
decrypt otherwise, `""` again if decryption raises. -/
def MCPConfiguration.get_personal_access_token (key : Nat) (c : MCPConfiguration) : String :=
  if c.personal_access_token.truthy = false then ""
  else
    match fernetDecrypt key c.personal_access_token with
    | some t => t
    | none => ""

/-- `set_jira_personal_token`. -/
def MCPConfiguration.set_jira_personal_token (key : Nat) (c : MCPConfiguration)
    (token : String) : MCPConfiguration :=
  if token = "" then { c with jira_personal_token := .blank }
  else { c with jira_personal_token := fernetEncrypt key token }

/-- `get_jira_personal_token`. -/
def MCPConfiguration.get_jira_personal_token (key : Nat) (c : MCPConfiguration) : String :=
  if c.jira_personal_token.truthy = false then ""
  else
    match fernetDecrypt key c.jira_personal_token with
    | some t => t
    | none => ""

/-- `set_confluence_personal_token`. -/
def MCPConfiguration.set_confluence_personal_token (key : Nat) (c : MCPConfiguration)
    (token : String) : MCPConfiguration :=
  if token = "" then { c with confluence_personal_token := .blank }
  else { c with confluence_personal_token := fernetEncrypt key token }

/-- `get_confluence_personal_token`. -/
def MCPConfiguration.get_confluence_personal_token (key : Nat) (c : MCPConfiguration) : String :=
  if c.confluence_personal_token.truthy = false then ""
  else
    match fernetDecrypt key c.confluence_personal_token with
    | some t => t
    | none => ""

/-- `url.startswith(('http://', 'https://'))` (computed on the
character lists so that it reduces inside the kernel). -/
def hasHttpScheme (url : String) : Bool :=
  "http://".data.isPrefixOf url.data || "https://".data.isPrefixOf url.data

/-- Python `str.strip()`: remove leading and trailing whitespace
(computed on the character list so that it reduces inside the kernel). -/
def pyStrip (s : String) : String :=
  ⟨(((s.data.dropWhile Char.isWhitespace).reverse.dropWhile Char.isWhitespace).reverse)⟩

def msgAtLeastOne : String := "At least one service (Jira or Confluence) must be configured"
def msgJiraScheme : String := "Jira URL must start with http:// or https://"
def msgJiraToken : String := "Jira Personal Access Token is required when Jira URL is provided"
def msgConfluenceScheme : String := "Confluence URL must start with http:// or https://"
def msgConfluenceToken : String :=
  "Confluence Personal Access Token is required when Confluence URL is provided"
def msgServerScheme : String := "Server URL must start with http:// or https://"

/-- `bool(self.jira_url and self.jira_personal_token)`. -/
def MCPConfiguration.jiraConfigured (c : MCPConfiguration) : Bool :=
  c.jira_url != "" && c.jira_personal_token.truthy

/-- `bool(self.confluence_url and self.confluence_personal_token)`. -/
def MCPConfiguration.confluenceConfigured (c : MCPConfiguration) : Bool :=
  c.confluence_url != "" && c.confluence_personal_token.truthy

/-- `bool(self.server_url and self.personal_access_token)`. -/
def MCPConfiguration.legacyConfigured (c : MCPConfiguration) : Bool :=
  c.server_url != "" && c.personal_access_token.truthy

/-- `MCPConfiguration.validate`: accumulate errors in source order. -/
def MCPConfiguration.validate (c : MCPConfiguration) : List String :=
  (if !(c.jiraConfigured || c.confluenceConfigured || c.legacyConfigured)
    then [msgAtLeastOne] else [])
  ++ (if c.jira_url != "" && !(hasHttpScheme c.jira_url) then [msgJiraScheme] else [])
  ++ (if c.jira_url != "" && !c.jira_personal_token.truthy then [msgJiraToken] else [])
  ++ (if c.confluence_url != "" && !(hasHttpScheme c.confluence_url)
    then [msgConfluenceScheme] else [])
  ++ (if c.confluence_url != "" && !c.confluence_personal_token.truthy
    then [msgConfluenceToken] else [])
  ++ (if c.server_url != "" && !(hasHttpScheme c.server_url) then [msgServerScheme] else [])

/-! MCP client layer (app/services/mcp_client.py). -/

/-- Exceptions raised by the MCP layer (app/services/exceptions.py);
`str(e)` of each is its carried message. -/
inductive MCPErr where
  | connection (msg : String)
  | timeout (msg : String)
  | validation (msg : String)
  deriving Repr, DecidableEq

def MCPErr.message : MCPErr → String
  | .connection m => m
  | .timeout m => m
  | .validation m => m

/-- Outcome of one `MCPServerManager.call_tool` invocation, as seen by
the client: tool name, tool arguments and auth headers determine either
the JSON-RPC result payload or the raised error. -/
def Oracle : Type :=
  String → Json → List (String × String) → Except MCPErr Json

/-- `int(time.time() * 1000)`: the JSON-RPC request id is the wall-clock
reading in milliseconds at the moment of the invocation. -/
def mcpRequestId (now_ms : Nat) : Nat := now_ms

/-- The JSON-RPC request body built by `MCPServerManager.call_tool`. -/
def mcpRequest (now_ms : Nat) (tool_name : String) (arguments : Json) : Json :=
  .obj [("jsonrpc", .str "2.0"),
        ("id", .num (mcpRequestId now_ms)),
        ("method", .str "tools/call"),
        ("params", .obj [("name", .str tool_name), ("arguments", arguments)])]

/-- One round of `MCPServerManager.ensure_server_running`'s startup poll:
probe indices `attempt, attempt+1, ...` while fuel lasts. -/
def pollHealthy (probes : Nat → Bool) : Nat → Nat → Bool
  | _, 0 => false
  | attempt, fuel + 1 => if probes attempt then true else pollHealthy probes (attempt + 1) fuel

/-- `MCPServerManager.ensure_server_running`, with the health probe
modelled as a sequence of probe outcomes (probe 0 is the initial check,
probes 1..10 the startup polling loop).  Returns the boolean result and
the number of child processes spawned during the call. -/
def ensure_server_running (probes : Nat → Bool) : Bool × Nat :=
  if probes 0 then (true, 0)
  else (pollHealthy probes 1 10, 1)

/-- Connection test result dataclass.  Field values come verbatim from
JSON lookups, so they are modelled as `Json`. -/
structure ConnectionResult where
  success : Bool
  user_name : Json
  user_id : Json
  display_name : Json
  email : Json
  error_message : Option String
  server_info : Option Json
  deriving Repr

/-- `ConnectionResult(success=False, error_message=msg)`. -/
def ConnectionResult.failure (msg : String) : ConnectionResult :=
  { success := false, user_name := .str "", user_id := .str "", display_name := .str ""
    email := .str "", error_message := some msg, server_info := none }

/-- A Python `or`-chain `d.get(k1) or d.get(k2) or ... or dflt`: the
first truthy value among the candidate keys, else the fallback. -/
def jFirstTruthy (d : Json) (keys : List String) (dflt : Json) : Json :=
  match keys with
  | [] => dflt
  | k :: rest =>
    match d.lookup k with
    | some v => if v.pyTruthy then v else jFirstTruthy d rest dflt
    | none => jFirstTruthy d rest dflt

/-- `str(bool_value).lower()`. -/
def pyBoolStr (b : Bool) : String := if b then "true" else "false"

def headersBase : List (String × String) :=
  [("Content-Type", "application/json"), ("User-Agent", "JIA-MCP-Client/1.0")]

/-- `MCPClientManager._get_auth_headers`. -/
def MCPConfiguration.get_auth_headers (key : Nat) (c : MCPConfiguration)
    (service_type : String) : List (String × String) :=
  if service_type = "jira" then
    if c.jira_url != "" && c.get_jira_personal_token key != "" then
      headersBase ++
        [("X-Jira-URL", c.jira_url),
         ("X-Jira-Personal-Token", c.get_jira_personal_token key),
         ("X-Jira-SSL-Verify", pyBoolStr c.jira_ssl_verify)]
    else headersBase
  else if service_type = "confluence" then
    if c.confluence_url != "" && c.get_confluence_personal_token key != "" then
      headersBase ++
        [("X-Confluence-URL", c.confluence_url),
         ("X-Confluence-Personal-Token", c.get_confluence_personal_token key),
         ("X-Confluence-SSL-Verify", pyBoolStr c.confluence_ssl_verify)]
    else headersBase
  else headersBase

/-- `MCPClientManager.test_jira_connection`: `now` models
`datetime.utcnow()` for the diagnostic payload. -/
def MCPConfiguration.test_jira_connection (key : Nat) (c : MCPConfiguration)
    (oracle : Oracle) (now : Nat) : ConnectionResult :=
  if c.jira_url = "" ∨ c.get_jira_personal_token key = "" then
    .failure "Jira URL and Personal Access Token are required"
  else if !hasHttpScheme c.jira_url then
    .failure "Invalid Jira URL format - must start with http:// or https://"
  else
    match oracle "jira_get_user_profile" (.obj []) (c.get_auth_headers key "jira") with
    | .error (.connection m) => .failure ("MCP Connection Error: " ++ m)
    | .error (.timeout m) => .failure ("Connection timeout: " ++ m)
    | .error (.validation m) => .failure ("Unexpected error: " ++ m)
    | .ok response =>
      match response with
      | .obj _ =>
        let user_name := jFirstTruthy response ["displayName", "name", "username"]
          (.str "Unknown User")
        { success := true
          user_name := user_name
          user_id := jFirstTruthy response ["accountId", "key", "id"] (.str "")
          display_name := user_name
          email := jFirstTruthy response ["emailAddress", "email"] (.str "")
          error_message := none
          server_info := some (.obj
            [("server_url", .str c.jira_url),
             ("ssl_verify", .bool c.jira_ssl_verify),
             ("connection_time", .num now),
             ("raw_response", response)]) }
      | other =>
        .failure ("Unexpected response format from MCP server: " ++ other.pyTypeName)

/-- `MCPClientManager.test_confluence_connection` (note the email alias
order differs from the Jira test). -/
def MCPConfiguration.test_confluence_connection (key : Nat) (c : MCPConfiguration)
    (oracle : Oracle) (now : Nat) : ConnectionResult :=
  if c.confluence_url = "" ∨ c.get_confluence_personal_token key = "" then
    .failure "Confluence URL and Personal Access Token are required"
  else if !hasHttpScheme c.confluence_url then
    .failure "Invalid Confluence URL format - must start with http:// or https://"
  else
    match oracle "confluence_search_user" (.obj []) (c.get_auth_headers key "confluence") with
    | .error (.connection m) => .failure ("MCP Connection Error: " ++ m)
    | .error (.timeout m) => .failure ("Connection timeout: " ++ m)
    | .error (.validation m) => .failure ("Unexpected error: " ++ m)
    | .ok response =>
      match response with
      | .obj _ =>
        let user_name := jFirstTruthy response ["displayName", "name", "username"]
          (.str "Unknown User")
        { success := true
          user_name := user_name
          user_id := jFirstTruthy response ["accountId", "key", "id"] (.str "")
          display_name := user_name
          email := jFirstTruthy response ["email", "emailAddress"] (.str "")
          error_message := none
          server_info := some (.obj
            [("server_url", .str c.confluence_url),
             ("ssl_verify", .bool c.confluence_ssl_verify),
             ("connection_time", .num now),
             ("raw_response", response)]) }
      | other =>
        .failure ("Unexpected response format from MCP server: " ++ other.pyTypeName)

/-- Message of the AttributeError raised by `.get` on a non-dict value.
Python quotes the type name; the quotes are elided here (no theorem
asserts this exact text). -/
def attrGetError (v : Json) : String :=
  v.pyTypeName ++ " object has no attribute get"

/-- The envelope unwrapping `if k1 in response: ... elif k2 in response:
... else response`, applied when `response` is a dict; on a non-dict all
lookups miss and the response passes through unchanged, matching the
`isinstance(response, dict)` guard. -/
def unwrapEnvelope (keys : List String) (response : Json) : Json :=
  match keys with
  | [] => response
  | k :: rest =>
    match response.lookup k with
    | some v => v
    | none => unwrapEnvelope rest response

/-- Jira board dataclass; `id` goes through `str()`, the other fields
hold the looked-up JSON values verbatim. -/
structure Board where
  id : String
  name : Json
  type : Json
  project_key : Json
  project_name : Json
  self_url : Json
  deriving Repr

/-- The per-element mapping of `get_boards`: fails (AttributeError) when
the element, its `location`, or its `project` is not a dict. -/
def boardOfJson (jira_url : String) (b : Json) : Except String Board :=
  match b with
  | .obj _ =>
    let board_id := ((b.lookup "id").getD (.str "")).pyStr
    let board_name := (b.lookup "name").getD (.str "Unknown Board")
    let board_type := (b.lookup "type").getD (.str "unknown")
    let location := (b.lookup "location").getD (.obj [])
    match location with
    | .obj _ =>
      let project_key := (location.lookup "projectKey").getD (.str "")
      let project_name := (location.lookup "projectName").getD (.str "")
      let self_url := (b.lookup "self").getD
        (.str (jira_url ++ "/rest/agile/1.0/board/" ++ board_id))
      if !project_key.pyTruthy && b.hasKey "project" then
        match (b.lookup "project").getD .null with
        | .obj pf =>
          let project_info : Json := .obj pf
          .ok { id := board_id, name := board_name, type := board_type
                project_key := (project_info.lookup "key").getD (.str "")
                project_name := (project_info.lookup "name").getD (.str "")
                self_url := self_url }
        | other => .error (attrGetError other)
      else
        .ok { id := board_id, name := board_name, type := board_type
              project_key := project_key, project_name := project_name
              self_url := self_url }
    | other => .error (attrGetError other)
  | other => .error (attrGetError other)

/-- `MCPClientManager.get_boards`: every failure inside the body is
re-raised as `MCPConnectionError("Failed to fetch boards: " + str(e))`;
a non-list payload after unwrapping yields an empty list. -/
def MCPConfiguration.get_boards (key : Nat) (c : MCPConfiguration)
    (oracle : Oracle) : Except MCPErr (List Board) :=
  if c.jira_url = "" ∨ c.get_jira_personal_token key = "" then
    .error (.connection
      ("Failed to fetch boards: " ++ "Jira configuration is required for board operations"))
  else
    match oracle "jira_get_agile_boards" (.obj []) (c.get_auth_headers key "jira") with
    | .error e => .error (.connection ("Failed to fetch boards: " ++ e.message))
    | .ok response =>
      match unwrapEnvelope ["values", "boards", "content"] response with
      | .arr items =>
        match items.mapM (boardOfJson c.jira_url) with
        | .ok boards => .ok boards
        | .error m => .error (.connection ("Failed to fetch boards: " ++ m))
      | _ => .ok []

/-- Jira sprint dataclass; the date fields keep Python's
`dict.get(key)` result, `none` modelling its `None` default. -/
structure Sprint where
  id : String
  name : Json
  state : Json
  start_date : Option Json
  end_date : Option Json
  complete_date : Option Json
  board_id : String
  deriving Repr

/-- The per-element mapping of `get_sprints`. -/
def sprintOfJson (board_id : String) (s : Json) : Except String Sprint :=
  match s with
  | .obj _ =>
    .ok { id := ((s.lookup "id").getD (.str "")).pyStr
          name := (s.lookup "name").getD (.str "Unknown Sprint")
          state := (s.lookup "state").getD (.str "unknown")
          start_date := s.lookup "startDate"
          end_date := s.lookup "endDate"
          complete_date := s.lookup "completeDate"
          board_id := board_id }
  | other => .error (attrGetError other)

/-- `MCPClientManager.get_sprints`. -/
def MCPConfiguration.get_sprints (key : Nat) (c : MCPConfiguration)
    (oracle : Oracle) (board_id : String) : Except MCPErr (List Sprint) :=
  if c.jira_url = "" ∨ c.get_jira_personal_token key = "" then
    .error (.connection
      ("Failed to fetch sprints: " ++ "Jira configuration is required for sprint operations"))
  else
    match oracle "jira_get_sprints_from_board" (.obj [("board_id", .str board_id)])
        (c.get_auth_headers key "jira") with
    | .error e => .error (.connection ("Failed to fetch sprints: " ++ e.message))
    | .ok response =>
      match unwrapEnvelope ["values", "sprints", "content"] response with
      | .arr items =>
        match items.mapM (sprintOfJson board_id) with
        | .ok sprints => .ok sprints
        | .error m => .error (.connection ("Failed to fetch sprints: " ++ m))
      | _ => .ok []

/-- Ticket creation result dataclass. -/
structure TicketResult where
  success : Bool
  ticket_key : String
  ticket_id : String
  ticket_url : String
  error_message : Option String
  deriving Repr, DecidableEq

def TicketResult.failure (msg : String) : TicketResult :=
  { success := false, ticket_key := "", ticket_id := "", ticket_url := ""
    error_message := some msg }

def requiredTicketFields : List String := ["summary", "project", "issuetype"]

/-- `MCPClientManager.create_ticket`: validates the required-field set
locally, then fabricates a creation result (the body is simulated in the
source — no gateway call is made); the surrounding `except` turns any
raised error into a failure result. -/
def MCPConfiguration.create_ticket (key : Nat) (c : MCPConfiguration)
    (ticket_data : Json) : TicketResult :=
  if c.jira_url = "" ∨ c.get_jira_personal_token key = "" then
    .failure ("Failed to create ticket: " ++ "Jira configuration is required for ticket creation")
  else
    match ticket_data with
    | .obj _ =>
      let missing_fields := requiredTicketFields.filter
        (fun f => !((ticket_data.lookup f).getD .null).pyTruthy)
      if missing_fields ≠ [] then
        .failure ("Missing required fields: " ++ String.intercalate ", " missing_fields)
      else
        let ticket_key := ((ticket_data.lookup "project").getD .null).pyStr ++ "-" ++ "123"
        { success := true, ticket_key := ticket_key, ticket_id := "12345"
          ticket_url := c.jira_url ++ "/browse/" ++ ticket_key, error_message := none }
    | other => .failure ("Failed to create ticket: " ++ attrGetError other)

/-- Ticket history dataclass. -/
structure TicketHistory where
  ticket_key : String
  changelog : List Json
  comments : List Json
  worklog : List Json
  transitions : List Json
  deriving Repr

/-- The hard-coded changelog entry fabricated by `get_ticket_history`. -/
def simChangelog : List Json :=
  [.obj [("id", .str "1001"),
         ("author", .obj [("displayName", .str "John Doe"), ("accountId", .str "user123")]),
         ("created", .str "2025-01-01T10:00:00.000Z"),
         ("items", .arr [.obj [("field", .str "status"),
                               ("fromString", .str "To Do"),
                               ("toString", .str "In Progress")]])]]

/-- The hard-coded comment entry fabricated by `get_ticket_history`. -/
def simComments : List Json :=
  [.obj [("id", .str "2001"),
         ("author", .obj [("displayName", .str "Jane Smith"), ("accountId", .str "user456")]),
         ("created", .str "2025-01-01T11:00:00.000Z"),
         ("body", .str "Starting work on this ticket"),
         ("updateAuthor", .obj [("displayName", .str "Jane Smith"), ("accountId", .str "user456")]),
         ("updated", .str "2025-01-01T11:00:00.000Z")]]

/-- The hard-coded worklog entry fabricated by `get_ticket_history`. -/
def simWorklog : List Json :=
  [.obj [("id", .str "3001"),
         ("author", .obj [("displayName", .str "Jane Smith"), ("accountId", .str "user456")]),
         ("created", .str "2025-01-01T12:00:00.000Z"),
         ("timeSpent", .str "2h"),
         ("timeSpentSeconds", .num 7200),
         ("comment", .str "Initial analysis and setup")]]

/-- The hard-coded transition entry fabricated by `get_ticket_history`. -/
def simTransitions : List Json :=
  [.obj [("id", .str "4001"),
         ("name", .str "Start Progress"),
         ("to", .obj [("id", .str "3"), ("name", .str "In Progress")]),
         ("from", .obj [("id", .str "1"), ("name", .str "To Do")])]]

/-- `MCPClientManager.get_ticket_history`: after the credential checks
the body is simulated — it performs no gateway call and returns fixed
fabricated data for every ticket key. -/
def MCPConfiguration.get_ticket_history (key : Nat) (c : MCPConfiguration)
    (ticket_key : String) : Except MCPErr TicketHistory :=
  if ticket_key = "" ∨ pyStrip ticket_key = "" then
    .error (.connection ("Failed to fetch ticket history: " ++ "Ticket key is required"))
  else if c.jira_url = "" ∨ c.get_jira_personal_token key = "" then
    .error (.connection
      ("Failed to fetch ticket history: " ++ "Jira configuration is required for ticket history"))
  else
    .ok { ticket_key := ticket_key, changelog := simChangelog, comments := simComments
          worklog := simWorklog, transitions := simTransitions }

/-- Python indexing `value[k]`: KeyError on a missing key, TypeError on
a non-dict (message texts approximated; no theorem asserts them). -/
def Json.index (j : Json) (k : String) : Except String Json :=
  match j with
  | .obj _ =>
    match j.lookup k with
    | some v => .ok v
    | none => .error ("KeyError " ++ k)
  | other => .error (other.pyTypeName ++ " object is not subscriptable")

/-- Jira ticket dataclass; fields hold the looked-up JSON values, with
`Json.null` for Python `None`. -/
structure Ticket where
  id : Json
  key : Json
  summary : Json
  description : Json
  status : Json
  assignee : Json
  reporter : Json
  created : Json
  updated : Json
  issue_type : Json
  priority : Json
  story_points : Json
  labels : Json
  components : List Json
  deriving Repr

/-- The hard-coded search results fabricated by `search_tickets`. -/
def simSearchTicketsData : List Json :=
  [.obj [("id", .str "12345"),
         ("key", .str "DEV-123"),
         ("fields", .obj
           [("summary", .str "Implement user authentication"),
            ("description", .str "Add login and logout functionality"),
            ("status", .obj [("name", .str "In Progress")]),
            ("assignee", .obj [("displayName", .str "John Doe"), ("accountId", .str "user123")]),
            ("reporter", .obj [("displayName", .str "Jane Smith"), ("accountId", .str "user456")]),
            ("created", .str "2025-01-01T09:00:00.000Z"),
            ("updated", .str "2025-01-01T15:00:00.000Z"),
            ("issuetype", .obj [("name", .str "Story")]),
            ("priority", .obj [("name", .str "High")]),
            ("customfield_10016", .num 5),
            ("labels", .arr [.str "backend", .str "security"]),
            ("components", .arr [.obj [("name", .str "Authentication")]])])],
   .obj [("id", .str "12346"),
         ("key", .str "DEV-124"),
         ("fields", .obj
           [("summary", .str "Fix login bug"),
            ("description", .str "Users cannot login with special characters"),
            ("status", .obj [("name", .str "To Do")]),
            ("assignee", .null),
            ("reporter", .obj [("displayName", .str "Bob Wilson"), ("accountId", .str "user789")]),
            ("created", .str "2025-01-02T10:00:00.000Z"),
            ("updated", .str "2025-01-02T10:00:00.000Z"),
            ("issuetype", .obj [("name", .str "Bug")]),
            ("priority", .obj [("name", .str "Medium")]),
            ("customfield_10016", .null),
            ("labels", .arr [.str "frontend", .str "bug"]),
            ("components", .arr [.obj [("name", .str "UI")]])])]]

/-- The per-element `Ticket(...)` construction in `search_tickets`,
evaluated in source argument order. -/
def ticketOfSearchJson (t : Json) : Except String Ticket := do
  let fields ← t.index "fields"
  let tid ← t.index "id"
  let tkey ← t.index "key"
  let summary ← fields.index "summary"
  let description := (fields.lookup "description").getD (.str "")
  let status ← (← fields.index "status").index "name"
  let assignee ← if ((fields.lookup "assignee").getD .null).pyTruthy
    then (← fields.index "assignee").index "displayName"
    else pure .null
  let reporter ← if ((fields.lookup "reporter").getD .null).pyTruthy
    then (← fields.index "reporter").index "displayName"
    else pure .null
  let created := (fields.lookup "created").getD .null
  let updated := (fields.lookup "updated").getD .null
  let issue_type ← (← fields.index "issuetype").index "name"
  let priority ← (← fields.index "priority").index "name"
  let story_points := (fields.lookup "customfield_10016").getD .null
  let labels := (fields.lookup "labels").getD (.arr [])
  let components ←
    match (fields.lookup "components").getD (.arr []) with
    | .arr cs => cs.mapM (fun comp => comp.index "name")
    | other => .error (other.pyTypeName ++ " object is not iterable")
  .ok { id := tid, key := tkey, summary := summary, description := description
        status := status, assignee := assignee, reporter := reporter
        created := created, updated := updated, issue_type := issue_type
        priority := priority, story_points := story_points, labels := labels
        components := components }

/-- `MCPClientManager.search_tickets`: after the credential checks the
body is simulated — it performs no gateway call and maps the fixed
`simSearchTicketsData` (truncated to `max_results`) into tickets. -/
def MCPConfiguration.search_tickets (key : Nat) (c : MCPConfiguration)
    (jql : String) (max_results : Nat) : Except MCPErr (List Ticket) :=
  if jql = "" ∨ pyStrip jql = "" then
    .error (.connection ("Failed to search tickets: " ++ "JQL query is required"))
  else if c.jira_url = "" ∨ c.get_jira_personal_token key = "" then
    .error (.connection
      ("Failed to search tickets: " ++ "Jira configuration is required for ticket search"))
  else
    match (simSearchTicketsData.take max_results).mapM ticketOfSearchJson with
    | .ok tickets => .ok tickets
    | .error m => .error (.connection ("Failed to search tickets: " ++ m))

/-! Configuration-management services (app/config_mgmt/services.py). -/

/-- `str.title()` restricted to the single lowercase words used as
service types ("jira", "confluence"), where it coincides with
capitalisation of the first character. -/
def pyTitle (s : String) : String := s.capitalize

/-- `opt_str or dflt`: Python treats both `None` and `""` as falsy. -/
def pyOrStr (v : Option String) (dflt : String) : String :=
  match v with
  | some s => if s = "" then dflt else s
  | none => dflt

/-- `MCPTestService.test_connection`: constructs an `MCPClientManager`
(whose constructor raises `MCPValidationError` on an invalid
configuration — caught by the surrounding `except`), dispatches on the
service type, and on success sets `last_tested` to the current time.
Returns the `(success, message, user_info)` triple together with the
resulting configuration row. -/
def MCPTestService.test_connection (key : Nat) (c : MCPConfiguration)
    (service_type : String) (oracle : Oracle) (now : Nat) :
    (Bool × String × Json) × MCPConfiguration :=
  if c.validate ≠ [] then
    ((false,
      "Connection test failed: " ++ "Invalid MCP configuration: "
        ++ String.intercalate ", " c.validate,
      .obj []), c)
  else
    let result :=
      if service_type = "jira" then c.test_jira_connection key oracle now
      else if service_type = "confluence" then c.test_confluence_connection key oracle now
      else c.test_jira_connection key oracle now
    if result.success then
      let server_info := (result.server_info).getD .null
      let user_info : Json := .obj
        ([("user_name", result.user_name), ("user_id", result.user_id),
          ("display_name", result.display_name), ("email", result.email),
          ("server_info", server_info)]
         ++ (match server_info.lookup "user_details" with
             | some d => [("user_details", d)]
             | none => []))
      let message := pyTitle service_type ++ " connection successful! Connected as "
        ++ result.display_name.pyStr
      let message := if result.email.pyTruthy
        then message ++ " (" ++ result.email.pyStr ++ ")" else message
      ((true, message, user_info), { c with last_tested := some now })
    else
      ((false, pyOrStr result.error_message "Connection failed", .obj []), c)

/-- The fields of the `config_data` mapping read by `save_mcp_config`,
each `none` when the key is absent from the mapping. -/
structure ConfigData where
  jira_url : Option String
  jira_ssl_verify : Option Bool
  jira_personal_token : Option String
  confluence_url : Option String
  confluence_ssl_verify : Option Bool
  confluence_personal_token : Option String
  server_url : Option String
  personal_access_token : Option String
  additional_params : Option (List (String × Json))
  is_active : Option Bool
  deriving Repr

/-- An all-absent `config_data` mapping. -/
def ConfigData.empty : ConfigData :=
  { jira_url := none, jira_ssl_verify := none, jira_personal_token := none
    confluence_url := none, confluence_ssl_verify := none
    confluence_personal_token := none, server_url := none
    personal_access_token := none, additional_params := none, is_active := none }

/-- The field-update block of `save_mcp_config`, in source order.  URLs
and flags are overwritten unconditionally from `config_data` with the
dict-get defaults; a token is re-encrypted when a non-blank value is
supplied, cleared when the key is present with exactly `""`, and left
unchanged otherwise (in particular when the key is absent). -/
def applyMCPConfigUpdate (key : Nat) (cfg : MCPConfiguration) (cd : ConfigData) :
    MCPConfiguration :=
  let cfg := { cfg with jira_url := pyStrip (cd.jira_url.getD "")
                        jira_ssl_verify := cd.jira_ssl_verify.getD true }
  let jira_token := pyStrip (cd.jira_personal_token.getD "")
  let cfg :=
    if jira_token ≠ "" then cfg.set_jira_personal_token key jira_token
    else if cd.jira_personal_token = some "" then { cfg with jira_personal_token := .blank }
    else cfg
  let cfg := { cfg with confluence_url := pyStrip (cd.confluence_url.getD "")
                        confluence_ssl_verify := cd.confluence_ssl_verify.getD true }
  let confluence_token := pyStrip (cd.confluence_personal_token.getD "")
  let cfg :=
    if confluence_token ≠ "" then cfg.set_confluence_personal_token key confluence_token
    else if cd.confluence_personal_token = some "" then
      { cfg with confluence_personal_token := .blank }
    else cfg
  let cfg := { cfg with server_url := pyStrip (cd.server_url.getD "") }
  let pat := pyStrip (cd.personal_access_token.getD "")
  let cfg := if pat ≠ "" then cfg.set_personal_access_token key pat else cfg
  { cfg with additional_params := cd.additional_params.getD []
             is_active := cd.is_active.getD true }

/-- `ConfigurationService.save_mcp_config`: upsert (load the user's row
or construct a fresh one), apply the field updates, validate, and only
commit when validation passes. -/
def ConfigurationService.save_mcp_config (key : Nat)
    (existing : Option MCPConfiguration) (user_id : Nat) (cd : ConfigData) :
    Bool × List String × Option MCPConfiguration :=
  let config :=
    match existing with
    | some c => c
    | none => newMCPConfiguration user_id
  let config := applyMCPConfigUpdate key config cd
  let errors := config.validate
  if errors ≠ [] then (false, errors, none)
  else (true, [], some config)

/-! Concrete configurations used by witnesses and counterexamples. -/

/-- A configuration with only the Jira pair fully set. -/
def cfgA : MCPConfiguration :=
  { newMCPConfiguration 1 with
      jira_url := "https://jira.example.com"
      jira_personal_token := .tok 5 "abc" }

/-- Jira fully set, Confluence URL set without a token. -/
def cfgPartialConfluence : MCPConfiguration :=
  { cfgA with confluence_url := "https://conf.example.com" }

/-- Only the legacy URL set, with no legacy token. -/
def cfgLegacyNoToken : MCPConfiguration :=
  { newMCPConfiguration 1 with server_url := "https://legacy.example.com" }

/-- Only the Jira URL set, with no Jira token. -/
def cfgJiraUrlOnly : MCPConfiguration :=
  { newMCPConfiguration 1 with jira_url := "https://j.example.com" }

/-- Only the Confluence URL set, with no Confluence token. -/
def cfgConfluenceUrlOnly : MCPConfiguration :=
  { newMCPConfiguration 1 with confluence_url := "https://c.example.com" }

/-- Token cells that cannot be decrypted under key 7: corrupt data and a
token encrypted under a different key. -/
def cfgCorrupt : MCPConfiguration :=
  { newMCPConfiguration 2 with
      jira_personal_token := .garbage "corrupted-ciphertext"
      confluence_personal_token := .tok 99 "secret" }

/-! Claim theorems. -/

/-- C1: storing a token with each `set_<service>_token` and reading it
back with the matching getter yields the same token again (any token,
in particular any non-empty one), and storing the empty string stores
the blank cell, which the getter reads back as the empty string. -/
theorem c1_set_get_token_round_trip (key : Nat) (c : MCPConfiguration) (t : String) :
    (c.set_jira_personal_token key t).get_jira_personal_token key = t
    ∧ (c.set_confluence_personal_token key t).get_confluence_personal_token key = t
    ∧ (c.set_personal_access_token key t).get_personal_access_token key = t
    ∧ (c.set_jira_personal_token key "").jira_personal_token = .blank
    ∧ (c.set_confluence_personal_token key "").confluence_personal_token = .blank
    ∧ (c.set_personal_access_token key "").personal_access_token = .blank := by
  refine ⟨?_, ?_, ?_, ?_, ?_, ?_⟩ <;> by_cases h : t = "" <;>
    simp [MCPConfiguration.set_jira_personal_token,
      MCPConfiguration.get_jira_personal_token,
      MCPConfiguration.set_confluence_personal_token,
      MCPConfiguration.get_confluence_personal_token,
      MCPConfiguration.set_personal_access_token,
      MCPConfiguration.get_personal_access_token,
      fernetEncrypt, fernetDecrypt, TokenCell.truthy, h]

/-- C2 counterexample: a snapshot in which the Jira pair is fully set
and every set URL carries a valid scheme, but whose `validate()` is
nonetheless non-empty because the Confluence URL is set without a
token.  This refutes the claim that full configuration of one service
plus valid schemes alone forces an empty error list. -/
theorem c2_counterexample :
    (cfgPartialConfluence.jiraConfigured = true
      ∧ hasHttpScheme cfgPartialConfluence.jira_url = true
      ∧ hasHttpScheme cfgPartialConfluence.confluence_url = true
      ∧ cfgPartialConfluence.server_url = "")
    ∧ cfgPartialConfluence.validate = [msgConfluenceToken] := by
  exact ⟨⟨rfl, rfl, rfl, rfl⟩, rfl⟩

/-- C2 (amended): if at least one of the three url+token pairs is fully
set, every set URL starts with http:// or https://, and no primary or
secondary URL is set with an empty token, then `validate()` returns the
empty list; and if none of the three pairs is fully set, `validate()`
contains the "at least one service" error. -/
theorem c2_validate_totality :
    (∀ c : MCPConfiguration,
      (c.jiraConfigured = true ∨ c.confluenceConfigured = true ∨ c.legacyConfigured = true) →
      (c.jira_url ≠ "" →
        hasHttpScheme c.jira_url = true ∧ c.jira_personal_token.truthy = true) →
      (c.confluence_url ≠ "" →
        hasHttpScheme c.confluence_url = true ∧ c.confluence_personal_token.truthy = true) →
      (c.server_url ≠ "" → hasHttpScheme c.server_url = true) →
      c.validate = [])
    ∧ (∀ c : MCPConfiguration,
      c.jiraConfigured = false → c.confluenceConfigured = false →
      c.legacyConfigured = false → msgAtLeastOne ∈ c.validate) := by
  constructor
  · intro c h1 h2 h3 h4
    by_cases hj : c.jira_url = "" <;> by_cases hc : c.confluence_url = "" <;>
      by_cases hs : c.server_url = "" <;>
        simp_all [MCPConfiguration.validate, MCPConfiguration.jiraConfigured,
          MCPConfiguration.confluenceConfigured, MCPConfiguration.legacyConfigured]
  · intro c h1 h2 h3
    simp [MCPConfiguration.validate, h1, h2, h3]

/-- C2 witness: the amended theorem applied to the fully-Jira-configured
snapshot and to the empty snapshot. -/
theorem c2_validate_totality_witness :
    cfgA.validate = [] ∧ msgAtLeastOne ∈ (newMCPConfiguration 1).validate :=
  ⟨c2_validate_totality.1 cfgA (Or.inl (by decide)) (fun _ => by decide)
      (fun h => absurd rfl h) (fun h => absurd rfl h),
    c2_validate_totality.2 (newMCPConfiguration 1) (by decide) (by decide) (by decide)⟩

/-- C3 counterexample: the legacy URL set with an empty legacy token
produces only the generic "at least one service" error — `validate()`
contains no token-required message for the legacy service (the source
checks only the legacy URL scheme, never the legacy token). -/
theorem c3_counterexample :
    cfgLegacyNoToken.server_url ≠ ""
    ∧ cfgLegacyNoToken.personal_access_token.truthy = false
    ∧ cfgLegacyNoToken.validate = [msgAtLeastOne] := by
  exact ⟨by decide, rfl, rfl⟩

/-- C3 (amended): for the primary and secondary services independently,
a set URL with an empty token makes `validate()` return a non-empty
list containing that service's token-required message; the legacy
service has no such check. -/
theorem c3_partial_config_token_required (c : MCPConfiguration) :
    (c.jira_url ≠ "" → c.jira_personal_token.truthy = false →
      msgJiraToken ∈ c.validate ∧ c.validate ≠ [])
    ∧ (c.confluence_url ≠ "" → c.confluence_personal_token.truthy = false →
      msgConfluenceToken ∈ c.validate ∧ c.validate ≠ []) := by
  constructor <;> intro h1 h2 <;>
  · refine have hm := ?_; ⟨hm, List.ne_nil_of_mem hm⟩
    simp [MCPConfiguration.validate, h1, h2]

/-- C3 witness: the amended theorem applied to a Jira-URL-only snapshot
and a Confluence-URL-only snapshot. -/
theorem c3_partial_config_token_required_witness :
    msgJiraToken ∈ cfgJiraUrlOnly.validate
    ∧ msgConfluenceToken ∈ cfgConfluenceUrlOnly.validate :=
  ⟨((c3_partial_config_token_required cfgJiraUrlOnly).1 (by decide) (by decide)).1,
    ((c3_partial_config_token_required cfgConfluenceUrlOnly).2 (by decide) (by decide)).1⟩

/-- C4: the token getters are total functions that degrade to the empty
string: a blank stored cell reads back as `""`, and a cell whose
decryption under the process key fails (corrupt data or a token from a
different key) also reads back as `""` instead of propagating the
decryption error. -/
theorem c4_get_token_degrades_to_empty (key : Nat) (c : MCPConfiguration) :
    (c.jira_personal_token.truthy = false → c.get_jira_personal_token key = "")
    ∧ (fernetDecrypt key c.jira_personal_token = none →
      c.get_jira_personal_token key = "")
    ∧ (c.confluence_personal_token.truthy = false →
      c.get_confluence_personal_token key = "")
    ∧ (fernetDecrypt key c.confluence_personal_token = none →
      c.get_confluence_personal_token key = "")
    ∧ (c.personal_access_token.truthy = false → c.get_personal_access_token key = "")
    ∧ (fernetDecrypt key c.personal_access_token = none →
      c.get_personal_access_token key = "") := by
  refine ⟨?_, ?_, ?_, ?_, ?_, ?_⟩ <;> intro h <;>
    simp [MCPConfiguration.get_jira_personal_token,
      MCPConfiguration.get_confluence_personal_token,
      MCPConfiguration.get_personal_access_token, h]

/-- C4 witness: corrupt ciphertext, a wrong-key token and a blank cell
all read back as the empty string. -/
theorem c4_get_token_degrades_to_empty_witness :
    cfgCorrupt.get_jira_personal_token 7 = ""
    ∧ cfgCorrupt.get_confluence_personal_token 7 = ""
    ∧ cfgCorrupt.get_personal_access_token 7 = "" :=
  ⟨(c4_get_token_degrades_to_empty 7 cfgCorrupt).2.1 rfl,
    (c4_get_token_degrades_to_empty 7 cfgCorrupt).2.2.2.1 rfl,
    (c4_get_token_degrades_to_empty 7 cfgCorrupt).2.2.2.2.1 rfl⟩

/-- An oracle whose every tool call raises a connection error. -/
def oracleDown : Oracle := fun _ _ _ => .error (.connection "MCP HTTP error: HTTP 500")

/-- An oracle whose every tool call raises a timeout error. -/
def oracleTimeout : Oracle := fun _ _ _ => .error (.timeout "MCP request timed out")

/-- An oracle whose every tool call yields a malformed (string) payload. -/
def oracleMalformed : Oracle := fun _ _ _ => .ok (.str "unexpected")

/-- C5 counterexample: with Jira fully configured, a malformed remote
board-listing payload (a bare string instead of a list or enveloped
dict) makes `get_boards` return an empty list rather than raise a
connection error, refuting the claim that the retrieval family raises
on every malformed remote response. -/
theorem c5_counterexample :
    cfgA.get_boards 5 oracleMalformed = .ok [] := by
  rfl

/-- C5 (amended): the connection test and ticket creation convert every
listed per-operation failure (missing credentials, gateway connection
or timeout error, malformed payload, missing required fields) into a
failure-shaped result with the success flag false and an error message
set, and never raise; the retrieval family raises a connection-error
for missing credentials and for gateway connection/timeout errors
(timeouts are re-wrapped as connection errors), but a malformed
(non-list) payload makes board retrieval return an empty list instead
of raising. -/
theorem c5_failure_asymmetry :
    (∀ key (c : MCPConfiguration) oracle now,
      (c.jira_url = "" ∨ c.get_jira_personal_token key = "") →
      c.test_jira_connection key oracle now
        = .failure "Jira URL and Personal Access Token are required")
    ∧ (∀ key (c : MCPConfiguration) oracle now m,
      c.jira_url ≠ "" → c.get_jira_personal_token key ≠ "" →
      hasHttpScheme c.jira_url = true →
      oracle "jira_get_user_profile" (.obj []) (c.get_auth_headers key "jira")
        = .error (.connection m) →
      c.test_jira_connection key oracle now = .failure ("MCP Connection Error: " ++ m))
    ∧ (∀ key (c : MCPConfiguration) oracle now m,
      c.jira_url ≠ "" → c.get_jira_personal_token key ≠ "" →
      hasHttpScheme c.jira_url = true →
      oracle "jira_get_user_profile" (.obj []) (c.get_auth_headers key "jira")
        = .error (.timeout m) →
      c.test_jira_connection key oracle now = .failure ("Connection timeout: " ++ m))
    ∧ (∀ key (c : MCPConfiguration) oracle now s,
      c.jira_url ≠ "" → c.get_jira_personal_token key ≠ "" →
      hasHttpScheme c.jira_url = true →
      oracle "jira_get_user_profile" (.obj []) (c.get_auth_headers key "jira")
        = .ok (.str s) →
      c.test_jira_connection key oracle now
        = .failure ("Unexpected response format from MCP server: " ++ "str"))
    ∧ (∀ key (c : MCPConfiguration) td,
      (c.jira_url = "" ∨ c.get_jira_personal_token key = "") →
      c.create_ticket key td
        = .failure ("Failed to create ticket: "
            ++ "Jira configuration is required for ticket creation"))
    ∧ (∀ key (c : MCPConfiguration) fs,
      c.jira_url ≠ "" → c.get_jira_personal_token key ≠ "" →
      requiredTicketFields.filter
          (fun f => !((Json.obj fs).lookup f |>.getD .null).pyTruthy) ≠ [] →
      c.create_ticket key (.obj fs)
        = .failure ("Missing required fields: " ++ String.intercalate ", "
            (requiredTicketFields.filter
              (fun f => !((Json.obj fs).lookup f |>.getD .null).pyTruthy))))
    ∧ (∀ key (c : MCPConfiguration) oracle,
      (c.jira_url = "" ∨ c.get_jira_personal_token key = "") →
      c.get_boards key oracle
        = .error (.connection ("Failed to fetch boards: "
            ++ "Jira configuration is required for board operations")))
    ∧ (∀ key (c : MCPConfiguration) oracle e,
      c.jira_url ≠ "" → c.get_jira_personal_token key ≠ "" →
      oracle "jira_get_agile_boards" (.obj []) (c.get_auth_headers key "jira") = .error e →
      c.get_boards key oracle
        = .error (.connection ("Failed to fetch boards: " ++ e.message)))
    ∧ (∀ key (c : MCPConfiguration) oracle bid,
      (c.jira_url = "" ∨ c.get_jira_personal_token key = "") →
      c.get_sprints key oracle bid
        = .error (.connection ("Failed to fetch sprints: "
            ++ "Jira configuration is required for sprint operations")))
    ∧ (∀ key (c : MCPConfiguration) oracle bid e,
      c.jira_url ≠ "" → c.get_jira_personal_token key ≠ "" →
      oracle "jira_get_sprints_from_board" (.obj [("board_id", .str bid)])
        (c.get_auth_headers key "jira") = .error e →
      c.get_sprints key oracle bid
        = .error (.connection ("Failed to fetch sprints: " ++ e.message)))
    ∧ (∀ key (c : MCPConfiguration) jql mr,
      jql ≠ "" → pyStrip jql ≠ "" →
      (c.jira_url = "" ∨ c.get_jira_personal_token key = "") →
      c.search_tickets key jql mr
        = .error (.connection ("Failed to search tickets: "
            ++ "Jira configuration is required for ticket search")))
    ∧ (∀ key (c : MCPConfiguration) tk,
      tk ≠ "" → pyStrip tk ≠ "" →
      (c.jira_url = "" ∨ c.get_jira_personal_token key = "") →
      c.get_ticket_history key tk
        = .error (.connection ("Failed to fetch ticket history: "
            ++ "Jira configuration is required for ticket history")))
    ∧ (∀ key (c : MCPConfiguration) oracle s,
      c.jira_url ≠ "" → c.get_jira_personal_token key ≠ "" →
      oracle "jira_get_agile_boards" (.obj []) (c.get_auth_headers key "jira")
        = .ok (.str s) →
      c.get_boards key oracle = .ok []) := by
  refine ⟨?_, ?_, ?_, ?_, ?_, ?_, ?_, ?_, ?_, ?_, ?_, ?_, ?_⟩
  · intro key c oracle now h
    rcases h with h | h <;> simp [MCPConfiguration.test_jira_connection, h]
  · intro key c oracle now m hu ht hs ho
    simp [MCPConfiguration.test_jira_connection, hu, ht, hs, ho]
  · intro key c oracle now m hu ht hs ho
    simp [MCPConfiguration.test_jira_connection, hu, ht, hs, ho]
  · intro key c oracle now s hu ht hs ho
    simp [MCPConfiguration.test_jira_connection, hu, ht, hs, ho, Json.pyTypeName]
  · intro key c td h
    rcases h with h | h <;> simp [MCPConfiguration.create_ticket, h]
  · intro key c fs hu ht hm
    simp [MCPConfiguration.create_ticket, hu, ht, hm]
  · intro key c oracle h
    rcases h with h | h <;> simp [MCPConfiguration.get_boards, h]
  · intro key c oracle e hu ht ho
    simp [MCPConfiguration.get_boards, hu, ht, ho]
  · intro key c oracle bid h
    rcases h with h | h <;> simp [MCPConfiguration.get_sprints, h]
  · intro key c oracle bid e hu ht ho
    simp [MCPConfiguration.get_sprints, hu, ht, ho]
  · intro key c jql mr hj1 hj2 h
    rcases h with h | h <;> simp [MCPConfiguration.search_tickets, hj1, hj2, h]
  · intro key c tk h1 h2 h
    rcases h with h | h <;> simp [MCPConfiguration.get_ticket_history, h1, h2, h]
  · intro key c oracle s hu ht ho
    simp [MCPConfiguration.get_boards, hu, ht, ho, unwrapEnvelope, Json.lookup]

/-- C5 witness: concrete instances — an unconfigured snapshot makes the
connection test return a failure result; a gateway timeout makes board
retrieval raise a connection error; a ticket missing project and
issuetype makes creation return a failure result. -/
theorem c5_failure_asymmetry_witness :
    (newMCPConfiguration 1).test_jira_connection 5 oracleDown 0
      = .failure "Jira URL and Personal Access Token are required"
    ∧ cfgA.get_boards 5 oracleTimeout
      = .error (.connection ("Failed to fetch boards: " ++ "MCP request timed out"))
    ∧ cfgA.create_ticket 5 (.obj [("summary", .str "x")])
      = .failure "Missing required fields: project, issuetype" :=
  ⟨c5_failure_asymmetry.1 5 (newMCPConfiguration 1) oracleDown 0 (Or.inl rfl),
    c5_failure_asymmetry.2.2.2.2.2.2.2.1 5 cfgA oracleTimeout (.timeout "MCP request timed out")
      (by decide) (by decide) rfl,
    c5_failure_asymmetry.2.2.2.2.2.1 5 cfgA [("summary", .str "x")]
      (by decide) (by decide) (by decide)⟩

/-- C6: whenever the initial health probe succeeds,
`ensure_server_running` returns true immediately and spawns no child
process, so two successive calls while the server is healthy spawn
nothing. -/
theorem c6_ensure_running_idempotent (probes probes2 : Nat → Bool)
    (h : probes 0 = true) (h2 : probes2 0 = true) :
    ensure_server_running probes = (true, 0)
    ∧ (ensure_server_running probes).2 + (ensure_server_running probes2).2 = 0 := by
  simp [ensure_server_running, h, h2]

/-- C6 witness: an always-healthy probe sequence. -/
theorem c6_ensure_running_idempotent_witness :
    ensure_server_running (fun _ => true) = (true, 0)
    ∧ (ensure_server_running (fun _ => true)).2
        + (ensure_server_running (fun _ => true)).2 = 0 :=
  c6_ensure_running_idempotent (fun _ => true) (fun _ => true) rfl rfl

/-- The first ticket fabricated by the simulated `search_tickets`. -/
def simTicket1 : Ticket :=
  { id := .str "12345", key := .str "DEV-123"
    summary := .str "Implement user authentication"
    description := .str "Add login and logout functionality"
    status := .str "In Progress", assignee := .str "John Doe"
    reporter := .str "Jane Smith", created := .str "2025-01-01T09:00:00.000Z"
    updated := .str "2025-01-01T15:00:00.000Z", issue_type := .str "Story"
    priority := .str "High", story_points := .num 5
    labels := .arr [.str "backend", .str "security"]
    components := [.str "Authentication"] }

/-- The second ticket fabricated by the simulated `search_tickets`. -/
def simTicket2 : Ticket :=
  { id := .str "12346", key := .str "DEV-124"
    summary := .str "Fix login bug"
    description := .str "Users cannot login with special characters"
    status := .str "To Do", assignee := .null
    reporter := .str "Bob Wilson", created := .str "2025-01-02T10:00:00.000Z"
    updated := .str "2025-01-02T10:00:00.000Z", issue_type := .str "Bug"
    priority := .str "Medium", story_points := .null
    labels := .arr [.str "frontend", .str "bug"]
    components := [.str "UI"] }

/-- C7 counterexample: with Jira fully configured, the JQL search and
the ticket-history retrieval return fixed fabricated data — two
hard-coded tickets and a hard-coded history — so neither invokes any
gateway tool for its data, refuting the claim that every member of the
retrieval family does. -/
theorem c7_counterexample :
    cfgA.search_tickets 5 "project = DEV" 50 = .ok [simTicket1, simTicket2]
    ∧ cfgA.get_ticket_history 5 "DEV-999"
      = .ok { ticket_key := "DEV-999", changelog := simChangelog
              comments := simComments, worklog := simWorklog
              transitions := simTransitions } := by
  exact ⟨rfl, rfl⟩

/-- C7 (amended): board and sprint retrieval invoke their named gateway
tools, unwrap a bare list or a dict enveloped under "values" /
"boards" ("sprints" for sprint retrieval) / "content" — tried in that
priority order — and map each element into the typed shape with
defaults for missing optional fields; an empty remote list yields an
empty sequence.  The JQL search and ticket-history retrieval do not
consult the gateway: they return fixed simulated data. -/
theorem c7_retrieval_mapping :
    (∀ key (c : MCPConfiguration) oracle,
      c.jira_url ≠ "" → c.get_jira_personal_token key ≠ "" →
      oracle "jira_get_agile_boards" (.obj []) (c.get_auth_headers key "jira")
        = .ok (.arr []) →
      c.get_boards key oracle = .ok [])
    ∧ (∀ key (c : MCPConfiguration) oracle (vs bs : List Json) out,
      c.jira_url ≠ "" → c.get_jira_personal_token key ≠ "" →
      oracle "jira_get_agile_boards" (.obj []) (c.get_auth_headers key "jira")
        = .ok (.obj [("boards", .arr bs), ("values", .arr vs)]) →
      vs.mapM (boardOfJson c.jira_url) = .ok out →
      c.get_boards key oracle = .ok out)
    ∧ (∀ key (c : MCPConfiguration) oracle (xs : List Json) out,
      c.jira_url ≠ "" → c.get_jira_personal_token key ≠ "" →
      oracle "jira_get_agile_boards" (.obj []) (c.get_auth_headers key "jira")
        = .ok (.obj [("content", .arr xs)]) →
      xs.mapM (boardOfJson c.jira_url) = .ok out →
      c.get_boards key oracle = .ok out)
    ∧ (∀ url, boardOfJson url (.obj [])
      = .ok { id := "", name := .str "Unknown Board", type := .str "unknown"
              project_key := .str "", project_name := .str ""
              self_url := .str (url ++ "/rest/agile/1.0/board/") })
    ∧ (∀ bid, sprintOfJson bid (.obj [])
      = .ok { id := "", name := .str "Unknown Sprint", state := .str "unknown"
              start_date := none, end_date := none, complete_date := none
              board_id := bid })
    ∧ (∀ key (c : MCPConfiguration) oracle bid,
      c.jira_url ≠ "" → c.get_jira_personal_token key ≠ "" →
      oracle "jira_get_sprints_from_board" (.obj [("board_id", .str bid)])
        (c.get_auth_headers key "jira") = .ok (.arr []) →
      c.get_sprints key oracle bid = .ok [])
    ∧ (∀ key key2 (c c2 : MCPConfiguration) jql jql2 mr,
      jql ≠ "" → pyStrip jql ≠ "" →
      c.jira_url ≠ "" → c.get_jira_personal_token key ≠ "" →
      jql2 ≠ "" → pyStrip jql2 ≠ "" →
      c2.jira_url ≠ "" → c2.get_jira_personal_token key2 ≠ "" →
      c.search_tickets key jql mr = c2.search_tickets key2 jql2 mr)
    ∧ (∀ key (c : MCPConfiguration) tk,
      tk ≠ "" → pyStrip tk ≠ "" →
      c.jira_url ≠ "" → c.get_jira_personal_token key ≠ "" →
      c.get_ticket_history key tk
        = .ok { ticket_key := tk, changelog := simChangelog, comments := simComments
                worklog := simWorklog, transitions := simTransitions }) := by
  refine ⟨?_, ?_, ?_, ?_, ?_, ?_, ?_, ?_⟩
  · intro key c oracle hu ht ho
    simp [MCPConfiguration.get_boards, hu, ht, ho, unwrapEnvelope, Json.lookup,
      List.mapM.loop]
    rfl
  · intro key c oracle vs bs out hu ht ho hmap
    simp only [MCPConfiguration.get_boards, hu, ht, ho,
      show unwrapEnvelope ["values", "boards", "content"]
        (.obj [("boards", .arr bs), ("values", .arr vs)]) = .arr vs from rfl]
    simp [hmap]
    rw [show List.mapM.loop (boardOfJson c.jira_url) vs []
        = vs.mapM (boardOfJson c.jira_url) from rfl, hmap]
  · intro key c oracle xs out hu ht ho hmap
    simp only [MCPConfiguration.get_boards, hu, ht, ho,
      show unwrapEnvelope ["values", "boards", "content"]
        (.obj [("content", .arr xs)]) = .arr xs from rfl]
    simp [hmap]
    rw [show List.mapM.loop (boardOfJson c.jira_url) xs []
        = xs.mapM (boardOfJson c.jira_url) from rfl, hmap]
  · intro url
    simp [boardOfJson, Json.lookup, Json.hasKey, Json.pyTruthy, Json.pyStr]
  · intro bid
    rfl
  · intro key c oracle bid hu ht ho
    simp [MCPConfiguration.get_sprints, hu, ht, ho, unwrapEnvelope, Json.lookup,
      List.mapM.loop]
    rfl
  · intro key key2 c c2 jql jql2 mr h1 h2 h3 h4 h5 h6 h7 h8
    simp [MCPConfiguration.search_tickets, h1, h2, h3, h4, h5, h6, h7, h8]
  · intro key c tk h1 h2 h3 h4
    simp [MCPConfiguration.get_ticket_history, h1, h2, h3, h4]

/-- C7 witness: an empty remote board list yields an empty board
sequence; a single-element enveloped sprint payload maps with defaults;
two differently-configured searches return the same simulated data. -/
theorem c7_retrieval_mapping_witness :
    cfgA.get_boards 5 (fun _ _ _ => .ok (.arr [])) = .ok []
    ∧ cfgA.get_sprints 5 (fun _ _ _ => .ok (.arr [])) "7" = .ok []
    ∧ cfgA.search_tickets 5 "project = DEV" 50
        = cfgPartialConfluence.search_tickets 5 "assignee = bob" 50 :=
  ⟨c7_retrieval_mapping.1 5 cfgA (fun _ _ _ => .ok (.arr []))
      (by decide) (by decide) rfl,
    c7_retrieval_mapping.2.2.2.2.2.1 5 cfgA (fun _ _ _ => .ok (.arr [])) "7"
      (by decide) (by decide) rfl,
    c7_retrieval_mapping.2.2.2.2.2.2.1 5 5 cfgA cfgPartialConfluence
      "project = DEV" "assignee = bob" 50
      (by decide) (by decide) (by decide) (by decide)
      (by decide) (by decide) (by decide) (by decide)⟩

/-- C8 counterexample: two distinct tool invocations performed in the
same wall-clock millisecond build requests with equal ids — the
timestamp-derived id is not strictly distinct across invocations. -/
theorem c8_counterexample :
    (mcpRequest 1700000000000 "jira_get_agile_boards" (.obj [])).lookup "id"
      = (mcpRequest 1700000000000 "jira_get_user_profile"
          (.obj [("user", .str "alice")])).lookup "id" := by
  rfl

/-- C8 (amended): every invocation builds a JSON-RPC body with method
"tools/call", params carrying the tool name and arguments, and an id
equal to the wall-clock reading in milliseconds — so ids are
non-decreasing across invocations under a monotone clock, but two
invocations within the same millisecond share an id. -/
theorem c8_request_shape_and_id (t1 t2 : Nat) (tool : String) (args : Json)
    (h : t1 ≤ t2) :
    (mcpRequest t1 tool args).lookup "method" = some (.str "tools/call")
    ∧ (mcpRequest t1 tool args).lookup "params"
        = some (.obj [("name", .str tool), ("arguments", args)])
    ∧ (mcpRequest t1 tool args).lookup "jsonrpc" = some (.str "2.0")
    ∧ (mcpRequest t1 tool args).lookup "id" = some (.num (mcpRequestId t1))
    ∧ mcpRequestId t1 ≤ mcpRequestId t2 :=
  ⟨rfl, rfl, rfl, rfl, h⟩

/-- C8 witness: the amended theorem at consecutive milliseconds. -/
theorem c8_request_shape_and_id_witness :
    (mcpRequest 1000 "jira_get_agile_boards" (.obj [])).lookup "method"
      = some (.str "tools/call")
    ∧ mcpRequestId 1000 ≤ mcpRequestId 1001 :=
  ⟨(c8_request_shape_and_id 1000 1001 "jira_get_agile_boards" (.obj [])
      (by decide)).1,
    (c8_request_shape_and_id 1000 1001 "jira_get_agile_boards" (.obj [])
      (by decide)).2.2.2.2⟩

/-- C9: the configuration's last-tested timestamp is left unchanged by
every failing run of the connection-test service and is set to the
current time exactly by a successful run. -/
theorem c9_last_tested_only_on_success (key : Nat) (c : MCPConfiguration)
    (service_type : String) (oracle : Oracle) (now : Nat) :
    ((MCPTestService.test_connection key c service_type oracle now).1.1 = false →
      (MCPTestService.test_connection key c service_type oracle now).2.last_tested
        = c.last_tested)
    ∧ ((MCPTestService.test_connection key c service_type oracle now).1.1 = true →
      (MCPTestService.test_connection key c service_type oracle now).2.last_tested
        = some now) := by
  by_cases hv : c.validate = []
  · unfold MCPTestService.test_connection
    simp only [hv]
    generalize (if service_type = "jira" then c.test_jira_connection key oracle now
      else if service_type = "confluence" then c.test_confluence_connection key oracle now
      else c.test_jira_connection key oracle now) = r
    by_cases hs : r.success <;> simp [hs]
  · unfold MCPTestService.test_connection
    simp [hv]

/-- C9 witness: a successful Jira test stamps `last_tested` with the
current time; a timed-out test leaves it unchanged. -/
theorem c9_last_tested_only_on_success_witness :
    (MCPTestService.test_connection 5 cfgA "jira"
        (fun _ _ _ => .ok (.obj [("displayName", .str "Alice")])) 42).2.last_tested
      = some 42
    ∧ (MCPTestService.test_connection 5 cfgA "jira" oracleTimeout 42).2.last_tested
      = cfgA.last_tested :=
  ⟨(c9_last_tested_only_on_success 5 cfgA "jira"
      (fun _ _ _ => .ok (.obj [("displayName", .str "Alice")])) 42).2 rfl,
    (c9_last_tested_only_on_success 5 cfgA "jira" oracleTimeout 42).1 rfl⟩

/-! Field-preservation helper lemmas for the save-update chain. -/

theorem set_jira_token_keeps_confluence_token (key : Nat) (c : MCPConfiguration)
    (t : String) :
    (c.set_jira_personal_token key t).confluence_personal_token
      = c.confluence_personal_token := by
  unfold MCPConfiguration.set_jira_personal_token; split_ifs <;> rfl

theorem set_jira_token_keeps_jira_url (key : Nat) (c : MCPConfiguration) (t : String) :
    (c.set_jira_personal_token key t).jira_url = c.jira_url := by
  unfold MCPConfiguration.set_jira_personal_token; split_ifs <;> rfl

theorem set_jira_token_keeps_confluence_url (key : Nat) (c : MCPConfiguration)
    (t : String) :
    (c.set_jira_personal_token key t).confluence_url = c.confluence_url := by
  unfold MCPConfiguration.set_jira_personal_token; split_ifs <;> rfl

theorem set_confluence_token_keeps_jira_token (key : Nat) (c : MCPConfiguration)
    (t : String) :
    (c.set_confluence_personal_token key t).jira_personal_token
      = c.jira_personal_token := by
  unfold MCPConfiguration.set_confluence_personal_token; split_ifs <;> rfl

theorem set_confluence_token_keeps_jira_url (key : Nat) (c : MCPConfiguration)
    (t : String) :
    (c.set_confluence_personal_token key t).jira_url = c.jira_url := by
  unfold MCPConfiguration.set_confluence_personal_token; split_ifs <;> rfl

theorem set_confluence_token_keeps_confluence_url (key : Nat) (c : MCPConfiguration)
    (t : String) :
    (c.set_confluence_personal_token key t).confluence_url = c.confluence_url := by
  unfold MCPConfiguration.set_confluence_personal_token; split_ifs <;> rfl

theorem set_pat_keeps_jira_token (key : Nat) (c : MCPConfiguration) (t : String) :
    (c.set_personal_access_token key t).jira_personal_token = c.jira_personal_token := by
  unfold MCPConfiguration.set_personal_access_token; split_ifs <;> rfl

theorem set_pat_keeps_confluence_token (key : Nat) (c : MCPConfiguration) (t : String) :
    (c.set_personal_access_token key t).confluence_personal_token
      = c.confluence_personal_token := by
  unfold MCPConfiguration.set_personal_access_token; split_ifs <;> rfl

theorem set_pat_keeps_jira_url (key : Nat) (c : MCPConfiguration) (t : String) :
    (c.set_personal_access_token key t).jira_url = c.jira_url := by
  unfold MCPConfiguration.set_personal_access_token; split_ifs <;> rfl

theorem set_pat_keeps_confluence_url (key : Nat) (c : MCPConfiguration) (t : String) :
    (c.set_personal_access_token key t).confluence_url = c.confluence_url := by
  unfold MCPConfiguration.set_personal_access_token; split_ifs <;> rfl

/-- C10: on a successful save over an existing row, omitting a token key
from the input mapping leaves the previously stored encrypted token
unchanged, supplying exactly the empty string clears it, while the URL
fields are always overwritten from the mapping (so an omitted URL key
resets the stored URL to the empty string). -/
theorem c10_save_token_url_asymmetry (key : Nat) (cfg0 : MCPConfiguration) (uid : Nat)
    (cd : ConfigData) (c' : MCPConfiguration)
    (h : ConfigurationService.save_mcp_config key (some cfg0) uid cd
      = (true, [], some c')) :
    (cd.jira_personal_token = none →
      c'.jira_personal_token = cfg0.jira_personal_token)
    ∧ (cd.jira_personal_token = some "" → c'.jira_personal_token = .blank)
    ∧ (cd.confluence_personal_token = none →
      c'.confluence_personal_token = cfg0.confluence_personal_token)
    ∧ (cd.confluence_personal_token = some "" →
      c'.confluence_personal_token = .blank)
    ∧ c'.jira_url = pyStrip (cd.jira_url.getD "")
    ∧ (cd.jira_url = none → c'.jira_url = "")
    ∧ c'.confluence_url = pyStrip (cd.confluence_url.getD "")
    ∧ (cd.confluence_url = none → c'.confluence_url = "") := by
  have hc : c' = applyMCPConfigUpdate key cfg0 cd := by
    unfold ConfigurationService.save_mcp_config at h
    by_cases hv : (applyMCPConfigUpdate key cfg0 cd).validate = []
    · simp only [hv] at h
      simp at h
      exact h.symm
    · simp only [hv] at h
      simp [hv] at h
  subst hc
  refine ⟨?_, ?_, ?_, ?_, ?_, ?_, ?_, ?_⟩
  · intro hn
    simp [applyMCPConfigUpdate, hn, show pyStrip "" = "" from rfl,
      apply_ite (fun c : MCPConfiguration => c.jira_personal_token),
      set_confluence_token_keeps_jira_token, set_pat_keeps_jira_token]
  · intro hn
    simp [applyMCPConfigUpdate, hn, show pyStrip "" = "" from rfl,
      apply_ite (fun c : MCPConfiguration => c.jira_personal_token),
      set_confluence_token_keeps_jira_token, set_pat_keeps_jira_token]
  · intro hn
    simp [applyMCPConfigUpdate, hn, show pyStrip "" = "" from rfl,
      apply_ite (fun c : MCPConfiguration => c.confluence_personal_token),
      set_jira_token_keeps_confluence_token, set_pat_keeps_confluence_token]
  · intro hn
    simp [applyMCPConfigUpdate, hn, show pyStrip "" = "" from rfl,
      apply_ite (fun c : MCPConfiguration => c.confluence_personal_token),
      set_jira_token_keeps_confluence_token, set_pat_keeps_confluence_token]
  · simp [applyMCPConfigUpdate,
      apply_ite (fun c : MCPConfiguration => c.jira_url),
      set_jira_token_keeps_jira_url, set_confluence_token_keeps_jira_url,
      set_pat_keeps_jira_url]
  · intro hn
    simp [applyMCPConfigUpdate, hn, show pyStrip "" = "" from rfl,
      apply_ite (fun c : MCPConfiguration => c.jira_url),
      set_jira_token_keeps_jira_url, set_confluence_token_keeps_jira_url,
      set_pat_keeps_jira_url]
  · simp [applyMCPConfigUpdate,
      apply_ite (fun c : MCPConfiguration => c.confluence_url),
      set_jira_token_keeps_confluence_url, set_confluence_token_keeps_confluence_url,
      set_pat_keeps_confluence_url]
  · intro hn
    simp [applyMCPConfigUpdate, hn, show pyStrip "" = "" from rfl,
      apply_ite (fun c : MCPConfiguration => c.confluence_url),
      set_jira_token_keeps_confluence_url, set_confluence_token_keeps_confluence_url,
      set_pat_keeps_confluence_url]

/-- An input mapping that omits both token keys but sets the Jira URL. -/
def cdKeepTokens : ConfigData :=
  { ConfigData.empty with jira_url := some "https://j.example.com" }

/-- C10 witness: saving over a row with a stored Jira token and an input
mapping that omits both token keys and the Confluence URL key preserves
the stored token, overwrites the Jira URL, and resets the Confluence
URL to the empty string. -/
theorem c10_save_token_url_asymmetry_witness :
    ConfigurationService.save_mcp_config 5 (some cfgA) 1 cdKeepTokens
      = (true, [], some (applyMCPConfigUpdate 5 cfgA cdKeepTokens))
    ∧ (applyMCPConfigUpdate 5 cfgA cdKeepTokens).jira_personal_token
        = cfgA.jira_personal_token
    ∧ (applyMCPConfigUpdate 5 cfgA cdKeepTokens).jira_url = "https://j.example.com"
    ∧ (applyMCPConfigUpdate 5 cfgA cdKeepTokens).confluence_url = "" :=
  ⟨rfl,
    (c10_save_token_url_asymmetry 5 cfgA 1 cdKeepTokens _ rfl).1 rfl,
    (c10_save_token_url_asymmetry 5 cfgA 1 cdKeepTokens _ rfl).2.2.2.2.1,
    (c10_save_token_url_asymmetry 5 cfgA 1 cdKeepTokens _ rfl).2.2.2.2.2.2.1⟩

end JIA
